import Mathlib

/-!
Verification of the commune-platform real-time core against its specification.

This file shallowly embeds the parts of the TypeScript source relevant to the
frozen claims:

* `src/shared/constants/permissions.ts` — permission bitfields and
  `calculateEffectivePermissions` (JavaScript `bigint` values are embedded as
  `Int`, whose `Int.land` / `Int.lor` / `Int.lnot` have exactly the
  two's-complement semantics of `bigint` `&` / `|` / `~`).
* `src/shared/utils/snowflake.ts` — the Snowflake id generator, embedded as an
  explicit state-passing step function over `Nat` (64-bit `bigint` arithmetic
  never overflows here, and all composed values are non-negative under the
  stated hypotheses).
* `src/modules/message/message.service.ts` — `createMessage`,
  `checkChannelPermission` and the per-user-per-channel rate limiter; the
  Prisma store and the Redis counter/presence collaborators are embedded as
  association lists inside explicit state, following the interfaces in §6 of
  the spec.
* `src/shared/middleware/auth.ts` — the gateway `handleMessageCreate` handler
  and the socket `disconnect` handler.

Side-effect tails that no claim mentions (mention extraction / notification
fanout, message caching) are omitted from the embedded operations; every
control-flow decision and every state write that a claim observes is kept.
-/

set_option maxRecDepth 4000

deriving instance DecidableEq for Except

/-! ## Association-list helpers (embedding of `Map` / Prisma row lookup) -/

/-- Lookup in an association list, first match wins (embeds `Map.get` /
`findUnique` / `findFirst`). -/
def lookupA {α β : Type} [DecidableEq α] : List (α × β) → α → Option β
  | [], _ => none
  | (k, v) :: rest, a => if a = k then some v else lookupA rest a

/-- Insert or replace a binding (embeds `Map.set` / a keyed Redis `SET`). -/
def insertA {α β : Type} [DecidableEq α] (l : List (α × β)) (a : α) (v : β) :
    List (α × β) :=
  (a, v) :: l.filter (fun p => p.1 ≠ a)

/-- Delete a binding (embeds `Map.delete`). -/
def eraseA {α β : Type} [DecidableEq α] (l : List (α × β)) (a : α) :
    List (α × β) :=
  l.filter (fun p => p.1 ≠ a)

/-! ## Permissions (`src/shared/constants/permissions.ts`) -/

namespace Permissions

/-- One permission bit, the embedding of the source's `1n << kn`. -/
def bit (k : Nat) : Int := ((1 <<< k : Nat) : Int)

def CREATE_INSTANT_INVITE : Int := bit 0
def KICK_MEMBERS : Int := bit 1
def BAN_MEMBERS : Int := bit 2
def ADMINISTRATOR : Int := bit 3
def MANAGE_CHANNELS : Int := bit 4
def MANAGE_GUILD : Int := bit 5
def ADD_REACTIONS : Int := bit 6
def VIEW_AUDIT_LOG : Int := bit 7
def VIEW_CHANNEL : Int := bit 10
def SEND_MESSAGES : Int := bit 11
def MANAGE_MESSAGES : Int := bit 13

/-- The full permission superset `Permissions.ALL`: the source ORs the listed
bit positions 0–25, 29–40 and 42–46 (note bit 39 appears twice in the source's
chain, under two different capability names). -/
def ALL : Int :=
  [0, 1, 2, 3, 4, 5, 6, 7, 8, 9, 10, 11, 12, 13, 14, 15, 16, 17, 18, 19, 20,
   21, 22, 23, 24, 25, 29, 30, 31, 32, 33, 34, 35, 36, 37, 38, 39, 40, 42, 43,
   44, 45, 46].foldl (fun acc k => Int.lor acc (bit k)) 0

def NONE : Int := 0

end Permissions

/-- A channel permission overwrite `{allow, deny}` as consumed by
`calculateEffectivePermissions`. -/
structure Overwrite where
  allow : Int
  deny : Int
deriving DecidableEq

namespace PermissionUtils

/-- `PermissionUtils.has`: `(permissions & permission) === permission`. -/
def has (permissions permission : Int) : Bool :=
  Int.land permissions permission = permission

/-- `PermissionUtils.add`: `permissions | permission`. -/
def add (permissions permission : Int) : Int :=
  Int.lor permissions permission

/-- `PermissionUtils.remove`: `permissions & ~permission`. -/
def remove (permissions permission : Int) : Int :=
  Int.land permissions (Int.lnot permission)

/-- `PermissionUtils.isAdministrator`. -/
def isAdministrator (permissions : Int) : Bool :=
  has permissions Permissions.ADMINISTRATOR

/-- `PermissionUtils.calculateEffectivePermissions`: starting from
`basePermissions`, apply each channel overwrite in list order via
`permissions = (permissions & ~overwrite.deny) | overwrite.allow`.
The source contains no other step — in particular no `ADMINISTRATOR` test. -/
def calculateEffectivePermissions (basePermissions : Int)
    (channelOverwrites : List Overwrite) : Int :=
  channelOverwrites.foldl
    (fun permissions overwrite =>
      Int.lor (Int.land permissions (Int.lnot overwrite.deny)) overwrite.allow)
    basePermissions

end PermissionUtils

/-! ## Durable configuration read by the permission checks
(`servers`, `serverMembers`/`roleMembers`, channel overwrites) -/

/-- The slice of the external store that `checkChannelPermission` can reach:
server ownership, each member's role permission bitfields, and the channel
permission overwrites (present in the data model, §3 of the spec, keyed by
`(channelId, targetId)`). -/
structure PermEnv where
  /-- `(serverId, ownerId)` rows of `servers`. -/
  servers : List (Nat × Nat)
  /-- `((serverId, userId), role permission bitfields)`: the member row joined
  with `roleMembers → role.permissions`. -/
  members : List ((Nat × Nat) × List Int)
  /-- `((channelId, targetId), overwrite)` channel-scoped overwrites. -/
  overwrites : List ((Nat × Nat) × Overwrite)
deriving DecidableEq

/-- `checkChannelPermission` from `message.service.ts`: server owner passes;
otherwise the member's role permissions are ORed, `ADMINISTRATOR` passes, else
the specific permission bit is tested.  The `channelId` parameter and the
channel overwrites are never consulted by the source. -/
def checkChannelPermission (env : PermEnv) (userId serverId channelId : Nat)
    (permission : Int) : Bool :=
  if lookupA env.servers serverId = some userId then true
  else
    match lookupA env.members (serverId, userId) with
    | none => false
    | some roles =>
      let permissions := roles.foldl (fun acc p => Int.lor acc p) 0
      if PermissionUtils.has permissions Permissions.ADMINISTRATOR then true
      else PermissionUtils.has permissions permission

/-! ## Snowflake id generator (`src/shared/utils/snowflake.ts`) -/

/-- `CUSTOM_EPOCH = 1609459200000n` (January 1, 2021), the default epoch. -/
def CUSTOM_EPOCH : Nat := 1609459200000

/-- Generator configuration after construction: `workerId` and `datacenterId`
as already masked to 5 bits by the constructor, plus the epoch. -/
structure SnowflakeConfig where
  workerId : Nat
  datacenterId : Nat
  epoch : Nat
deriving DecidableEq

namespace Snowflake

/-- The `Snowflake` constructor.  `workerId` / `datacenterId` arrive as
arbitrary (possibly negative) `bigint`s; the source first masks them with
`& MAX_WORKER_ID` (two's-complement `&`, embedded as `Int.land`) and only then
range-checks the masked value, throwing the quoted errors. -/
def mkConfig (workerId datacenterId : Int) (epoch : Nat) :
    Except String SnowflakeConfig :=
  let w := Int.land workerId 31
  let dc := Int.land datacenterId 31
  if w < 0 ∨ w > 31 then
    .error "Worker ID must be between 0 and 31"
  else if dc < 0 ∨ dc > 31 then
    .error "Datacenter ID must be between 0 and 31"
  else
    .ok ⟨w.toNat, dc.toNat, epoch⟩

/-- Mutable generator state: `lastTimestamp` (initially `-1n`, hence `Int`)
and the 12-bit `sequence`. -/
structure SfState where
  last : Int
  seq : Nat
deriving DecidableEq

/-- Initial state: `sequence = 0n`, `lastTimestamp = -1n`. -/
def initState : SfState := ⟨-1, 0⟩

/-- Id composition, the `return` expression of `generate`:
`((timestamp - epoch) << 22) | (datacenterId << 17) | (workerId << 12) | sequence`.
All quantities are non-negative whenever `epoch ≤ ts`, so `Nat` arithmetic
coincides with the source's `bigint` arithmetic there. -/
def composeId (cfg : SnowflakeConfig) (ts seq : Nat) : Nat :=
  (ts - cfg.epoch) <<< 22 ||| cfg.datacenterId <<< 17 ||| cfg.workerId <<< 12 ||| seq

/-- One `generate()` call as a state transformer.  `now` is the value of
`Date.now()` read at entry; `later` is the value `waitNextMillis` eventually
returns in the sequence-overflow branch (its loop guarantees
`later > lastTimestamp`, which theorems take as a hypothesis).  Mirrors the
source: clock regression throws; same millisecond increments
`sequence = (sequence + 1n) & 4095n` and on wrap-around waits for the next
millisecond; a new millisecond resets the sequence to `0`. -/
def generateStep (cfg : SnowflakeConfig) (st : SfState) (now later : Nat) :
    Except String (Nat × SfState) :=
  if (now : Int) < st.last then
    .error "Clock moved backwards. Refusing to generate ID"
  else if (now : Int) = st.last then
    if (st.seq + 1) &&& 4095 = 0 then
      .ok (composeId cfg later 0, ⟨(later : Int), 0⟩)
    else
      .ok (composeId cfg now ((st.seq + 1) &&& 4095),
           ⟨(now : Int), (st.seq + 1) &&& 4095⟩)
  else
    .ok (composeId cfg now 0, ⟨(now : Int), 0⟩)

/-- Result record of `Snowflake.deconstruct` (the `timestamp` field is the
absolute epoch-milliseconds value wrapped in a `Date` by the source). -/
structure Deconstructed where
  timestamp : Nat
  workerId : Nat
  datacenterId : Nat
  sequence : Nat
  epoch : Nat
deriving DecidableEq

/-- `Snowflake.deconstruct`: shifts and masks against the fixed
`CUSTOM_EPOCH`, independent of any generator instance. -/
def deconstruct (id : Nat) : Deconstructed :=
  { timestamp := (id >>> 22) + CUSTOM_EPOCH
    workerId := (id >>> 12) &&& 31
    datacenterId := (id >>> 17) &&& 31
    sequence := id &&& 4095
    epoch := CUSTOM_EPOCH }

/-- Well-formedness of a generator state: the sequence fits in 12 bits and
`lastTimestamp` is either the initial `-1` or a clock value at or after the
epoch.  Holds for `initState` and is preserved by `generateStep`. -/
def WF (cfg : SnowflakeConfig) (st : SfState) : Prop :=
  st.seq ≤ 4095 ∧ (st.last = -1 ∨ (cfg.epoch : Int) ≤ st.last)

end Snowflake

/-! ## Message service and gateway state
(`message.service.ts`, `middleware/auth.ts`) -/

/-- A `channels` row as read by both message paths. -/
structure Channel where
  serverId : Option Nat
  isDeleted : Bool
deriving DecidableEq

/-- A persisted message row (fields the claims observe). -/
structure Msg where
  id : Nat
  channelId : Nat
  authorId : Nat
  content : String
  nonce : Option String
  replyTo : Option Nat
deriving DecidableEq

/-- External store slice consumed by the two message-create paths: channels,
permission configuration, and DM recipients.  Immutable during a call. -/
structure SvcEnv where
  channels : List (Nat × Channel)
  permEnv : PermEnv
  /-- `(channelId, userId)` rows of `channelRecipients`. -/
  recipients : List (Nat × Nat)
deriving DecidableEq

/-- Mutable state threaded through message creation: Redis rate-limit
counters (Modelled from the spec, §6: the collaborator is a counter primitive
with `increment(key) → count` and `expire(key, ttl)`; an entry is
`(count, expiresAt)` and an expired entry reads as absent), the persisted
messages, `channels.lastMessageId`, and the id allocator. -/
structure SvcState where
  /-- `((authorId, channelId), (count, expiresAt))` fixed-window counters. -/
  rate : List ((Nat × Nat) × (Nat × Nat))
  messages : List Msg
  lastMessage : List (Nat × Nat)
  nextId : Nat
deriving DecidableEq

/-- Read a fixed-window counter prior to `redis.incr` at time `now`: a
missing or expired key counts from zero and will receive a fresh
`expire(key, 60)`; a live key keeps its count and expiry. -/
def readCounter (rate : List ((Nat × Nat) × (Nat × Nat))) (key : Nat × Nat)
    (now : Nat) : Nat × Nat :=
  match lookupA rate key with
  | some (c, e) => if now < e then (c, e) else (0, now + 60)
  | none => (0, now + 60)

/-- The rate-limit-then-persist tail of `createMessage` (lines 93–163):
`redis.incr` on `message:rate:authorId:channelId`, `expire(key, 60)` when the
incremented count is `1`, rejection when the count exceeds `30` (the counter
increment is already committed at that point), otherwise the message row is
created and `lastMessageId` updated.  Mention notifications and caching are
omitted (no claim observes them). -/
def svcRateAndPersist (st : SvcState) (now : Nat) (channelId authorId : Nat)
    (content : String) (nonce : Option String) (replyTo : Option Nat) :
    SvcState × Except String Msg :=
  let key := (authorId, channelId)
  let prev := readCounter st.rate key now
  let currentCount := prev.1 + 1
  let st1 := { st with rate := insertA st.rate key (currentCount, prev.2) }
  if currentCount > 30 then
    (st1, .error "Rate limit exceeded. Please slow down.")
  else
    let msg : Msg :=
      { id := st1.nextId, channelId := channelId, authorId := authorId,
        content := content, nonce := nonce, replyTo := replyTo }
    ({ st1 with
        messages := st1.messages ++ [msg],
        lastMessage := insertA st1.lastMessage channelId msg.id,
        nextId := st1.nextId + 1 },
     .ok msg)

/-- Input of the service-level `createMessage`. -/
structure CreateMessageData where
  channelId : Nat
  authorId : Nat
  content : Option String
  attachments : List String
  replyTo : Option Nat
  nonce : Option String
deriving DecidableEq

/-- Service-level `createMessage` (lines 52–163): content-or-attachments
validation (an absent or empty `content` string is falsy), channel lookup
rejecting missing or soft-deleted channels, the `SEND_MESSAGES` check via
`checkChannelPermission` for server channels (DM channels check recipiency
instead), then the rate-limit/persist tail.  Failures before the rate limiter
leave the state untouched, exactly as in the source. -/
def createMessage (env : SvcEnv) (st : SvcState) (now : Nat)
    (data : CreateMessageData) : SvcState × Except String Msg :=
  if data.content.getD "" = "" ∧ data.attachments = [] then
    (st, .error "Message must have content or attachments")
  else
    match lookupA env.channels data.channelId with
    | none => (st, .error "Channel not found")
    | some channel =>
      if channel.isDeleted then (st, .error "Channel not found")
      else
        match channel.serverId with
        | some serverId =>
          if checkChannelPermission env.permEnv data.authorId serverId
              data.channelId Permissions.SEND_MESSAGES then
            svcRateAndPersist st now data.channelId data.authorId
              (data.content.getD "") data.nonce data.replyTo
          else
            (st, .error "You do not have permission to send messages in this channel")
        | none =>
          if (data.channelId, data.authorId) ∈ env.recipients then
            svcRateAndPersist st now data.channelId data.authorId
              (data.content.getD "") data.nonce data.replyTo
          else
            (st, .error "You are not a recipient of this DM")

/-- Outbound effects the gateway emits while handling an event. -/
inductive GwEvent where
  /-- A `PRESENCE_UPDATE` dispatch broadcast (`broadcastPresence`). -/
  | presenceUpdate (userId : Nat) (status : String)
  /-- The local room broadcast of a created message
  (`io.to(channel).emit`). -/
  | messageCreate (channelId messageId : Nat)
  /-- The cross-instance publish of the same message on the fanout bus
  (`publishEvent(CHANNELS.MESSAGE_BROADCAST, …)`). -/
  | messagePublish (channelId messageId : Nat)
deriving DecidableEq

/-- Gateway `handleMessageCreate` (auth.ts lines 772–875): channel lookup
(no `isDeleted` test), then — for a server channel — only a **membership**
lookup in `serverMembers`; for a DM channel a recipiency check.  No
`SEND_MESSAGES` capability is consulted anywhere.  On success the message row
is persisted, `lastMessageId` updated, and the event is broadcast locally and
published on the bus.  Errors occur before any write. -/
def handleMessageCreate (env : SvcEnv) (st : SvcState) (userId : Nat)
    (channelId : Nat) (content : Option String) (nonce : Option String)
    (replyTo : Option Nat) :
    Except String (SvcState × Msg × List GwEvent) :=
  match lookupA env.channels channelId with
  | none => .error "Channel not found"
  | some channel =>
    let persist : SvcState × Msg × List GwEvent :=
      let msg : Msg :=
        { id := st.nextId, channelId := channelId, authorId := userId,
          content := content.getD "", nonce := nonce, replyTo := replyTo }
      ({ st with
          messages := st.messages ++ [msg],
          lastMessage := insertA st.lastMessage channelId msg.id,
          nextId := st.nextId + 1 },
       msg,
       [GwEvent.messageCreate channelId msg.id,
        GwEvent.messagePublish channelId msg.id])
    match channel.serverId with
    | some serverId =>
      match lookupA env.permEnv.members (serverId, userId) with
      | none => .error "Not a member of this server"
      | some _ => .ok persist
    | none =>
      if (channelId, userId) ∈ env.recipients then .ok persist
      else .error "Not a recipient of this DM"

/-- Per-instance gateway connection state touched by the `disconnect`
handler: the `connectedClients` map, the local `userSockets` multi-socket
map, the shared socket registry and presence records (Modelled from the spec,
§4.3: `unregisterSocket` removes the `(user, socket)` registration and
`setPresence` writes the status record — the Redis implementations
`unregisterWebSocket` / `updatePresence` are not under `src/`), and the
`users.status` column. -/
structure GwConnState where
  connectedClients : List Nat
  userSockets : List (Nat × List Nat)
  registry : List (Nat × Nat)
  presence : List (Nat × String)
  dbStatus : List (Nat × String)
deriving DecidableEq

/-- The socket `disconnect` handler (auth.ts lines 713–742): drop the client,
and if the socket was authenticated, unregister it; remove it from the user's
local socket set; only when that set becomes empty does the handler delete the
user entry, write presence/status `offline`, and emit a single offline
presence broadcast. -/
def handleDisconnect (st : GwConnState) (socketId : Nat) (auth : Option Nat) :
    GwConnState × List GwEvent :=
  let st1 := { st with
    connectedClients := st.connectedClients.filter (fun s => s ≠ socketId) }
  match auth with
  | none => (st1, [])
  | some userId =>
    let registry' :=
      st1.registry.filter (fun p => ¬(p.1 = userId ∧ p.2 = socketId))
    match lookupA st1.userSockets userId with
    | none => ({ st1 with registry := registry' }, [])
    | some socks =>
      let socks' := socks.filter (fun s => s ≠ socketId)
      if socks' = [] then
        ({ st1 with
            registry := registry',
            userSockets := eraseA st1.userSockets userId,
            presence := insertA st1.presence userId "offline",
            dbStatus := insertA st1.dbStatus userId "offline" },
         [GwEvent.presenceUpdate userId "offline"])
      else
        ({ st1 with
            registry := registry',
            userSockets := insertA st1.userSockets userId socks' },
         [])

/-- Iterate `createMessage` with a fixed clock and payload: the state after
`n` successive calls (each call's state is threaded, its result discarded). -/
def svcIter (env : SvcEnv) (now : Nat) (d : CreateMessageData) :
    Nat → SvcState → SvcState
  | 0, st => st
  | n + 1, st => (createMessage env (svcIter env now d n st) now d).1

/-! ## Helper lemmas -/

/-- Lookup after `insertA` at the same key yields the inserted value. -/
theorem lookupA_insertA_self {α β : Type} [DecidableEq α]
    (l : List (α × β)) (a : α) (v : β) :
    lookupA (insertA l a v) a = some v := by
  simp [insertA, lookupA]

/-- Disjoint bitfields add: if `a &&& b = 0` then `a ||| b = a + b`. -/
theorem lor_eq_add_of_and_eq_zero (a b : Nat) (h : a &&& b = 0) :
    a ||| b = a + b := by
  induction a using Nat.strong_induction_on generalizing b with
  | _ a ih =>
    rcases Nat.eq_zero_or_pos a with rfl | ha
    · simp
    · have hd : a / 2 &&& b / 2 = 0 := by
        rw [← Nat.and_div_two, h]
      have ih2 := ih (a / 2) (Nat.div_lt_self ha (by norm_num)) (b / 2) hd
      have hm : ¬(a % 2 = 1 ∧ b % 2 = 1) := by
        intro hab
        have h1 : (a &&& b) % 2 = 1 := Nat.and_mod_two_eq_one.mpr hab
        rw [h] at h1
        omega
      have hor2 : (a ||| b) / 2 = a / 2 ||| b / 2 := Nat.or_div_two
      have hormod : (a ||| b) % 2 = 1 ↔ (a % 2 = 1 ∨ b % 2 = 1) :=
        Nat.or_mod_two_eq_one
      have e := Nat.div_add_mod (a ||| b) 2
      rw [hor2, ih2] at e
      omega

/-- `Nat.ldiff` (clear the bits of `n` from `m`) as a subtraction, in terms
the kernel can evaluate on literals. -/
theorem ldiff_eq_sub_and (m n : Nat) : Nat.ldiff m n = m - (m &&& n) := by
  have hdisj : Nat.ldiff m n &&& (m &&& n) = 0 := by
    apply Nat.eq_of_testBit_eq
    intro i
    simp only [Nat.testBit_and, Nat.testBit_ldiff, Nat.zero_testBit]
    cases m.testBit i <;> cases n.testBit i <;> simp
  have hor : Nat.ldiff m n ||| (m &&& n) = m := by
    apply Nat.eq_of_testBit_eq
    intro i
    simp only [Nat.testBit_or, Nat.testBit_and, Nat.testBit_ldiff]
    cases m.testBit i <;> cases n.testBit i <;> simp
  have := lor_eq_add_of_and_eq_zero _ _ hdisj
  rw [hor] at this
  omega

/-- Two's-complement `p & ~d` on non-negative `bigint`s, rephrased through
subtraction so that concrete instances evaluate. -/
theorem int_land_lnot_eq (p d : Int) (hp : 0 ≤ p) (hd : 0 ≤ d) :
    Int.land p (Int.lnot d) = p - Int.land p d := by
  obtain ⟨m, rfl⟩ := Int.eq_ofNat_of_zero_le hp
  obtain ⟨n, rfl⟩ := Int.eq_ofNat_of_zero_le hd
  show ((Nat.ldiff m n : Nat) : Int) = ((m : Nat) : Int) - ((m &&& n : Nat) : Int)
  rw [ldiff_eq_sub_and]
  have : (m &&& n) ≤ m := Nat.and_le_left
  omega

/-! ## Claim theorems -/

/-- C1: the claim says an `ADMINISTRATOR` base makes
`calculateEffectivePermissions` return the full permission superset and ignore
overwrites.  The source has no administrator branch: an administrator base is
returned as-is on empty overwrites (and `ADMINISTRATOR ≠ ALL`), and a deny
overwrite strips the administrator bit to `0`. -/
theorem calculateEffectivePermissions_admin_not_bypassed :
    PermissionUtils.calculateEffectivePermissions Permissions.ADMINISTRATOR [] =
      Permissions.ADMINISTRATOR ∧
    Permissions.ADMINISTRATOR ≠ Permissions.ALL ∧
    PermissionUtils.calculateEffectivePermissions Permissions.ADMINISTRATOR
      [{ allow := 0, deny := Permissions.ADMINISTRATOR }] = 0 := by
  refine ⟨rfl, by decide, ?_⟩
  show Int.lor
      (Int.land Permissions.ADMINISTRATOR (Int.lnot Permissions.ADMINISTRATOR))
      0 = 0
  rw [int_land_lnot_eq _ _ (by decide) (by decide)]
  decide

/-- C3: `effectivePermissions(base, [])` equals `base` for every base;
overwrites are applied in caller-supplied order via
`current = (current & ~deny) | allow`; and for
`base = SEND_MESSAGES | VIEW_CHANNEL` with a deny-then-allow pair of
`SEND_MESSAGES` overwrites, the result still contains `SEND_MESSAGES`. -/
theorem effectivePermissions_identity_and_order :
    (∀ base : Int,
       PermissionUtils.calculateEffectivePermissions base [] = base) ∧
    (∀ (base : Int) (ow : Overwrite) (ows : List Overwrite),
       PermissionUtils.calculateEffectivePermissions base (ow :: ows) =
         PermissionUtils.calculateEffectivePermissions
           (Int.lor (Int.land base (Int.lnot ow.deny)) ow.allow) ows) ∧
    PermissionUtils.has
      (PermissionUtils.calculateEffectivePermissions
        (Int.lor Permissions.SEND_MESSAGES Permissions.VIEW_CHANNEL)
        [{ allow := 0, deny := Permissions.SEND_MESSAGES },
         { allow := Permissions.SEND_MESSAGES, deny := 0 }])
      Permissions.SEND_MESSAGES = true := by
  refine ⟨fun _ => rfl, fun _ _ _ => rfl, ?_⟩
  show PermissionUtils.has
      (Int.lor
        (Int.land
          (Int.lor
            (Int.land (Int.lor Permissions.SEND_MESSAGES Permissions.VIEW_CHANNEL)
              (Int.lnot Permissions.SEND_MESSAGES))
            0)
          (Int.lnot 0))
        Permissions.SEND_MESSAGES)
      Permissions.SEND_MESSAGES = true
  have h1 : Int.land (Int.lor Permissions.SEND_MESSAGES Permissions.VIEW_CHANNEL)
      (Int.lnot Permissions.SEND_MESSAGES) = 1024 := by
    rw [int_land_lnot_eq _ _ (by decide) (by decide)]
    decide
  rw [h1]
  have h2 : Int.land (Int.lor (1024 : Int) 0) (Int.lnot 0) = 1024 := by
    rw [int_land_lnot_eq _ _ (by decide) (by decide)]
    decide
  rw [h2]
  decide

/-- C4: the claim says out-of-range worker/datacenter ids make the constructor
throw.  The source masks with `& 31n` before the range check, so the check can
never fire: `workerId = 32` is silently coerced to `0` and `workerId = -1n`
to `31`, and construction succeeds. -/
theorem snowflake_ctor_coerces_out_of_range :
    Snowflake.mkConfig 32 1 CUSTOM_EPOCH =
      .ok { workerId := 0, datacenterId := 1, epoch := CUSTOM_EPOCH } ∧
    Snowflake.mkConfig (-1) 1 CUSTOM_EPOCH =
      .ok { workerId := 31, datacenterId := 1, epoch := CUSTOM_EPOCH } := by
  have hneg : Int.land (-1) 31 = 31 := by
    show ((Nat.ldiff 31 0 : Nat) : Int) = 31
    rw [ldiff_eq_sub_and]
    decide
  constructor
  · decide
  · simp only [Snowflake.mkConfig, hneg]
    decide

/-- C7: a clock reading strictly behind `lastTimestamp` makes `generate`
throw the clock-regression error immediately — no identifier is produced and
no state transition happens. -/
theorem generate_fails_on_clock_regression
    (cfg : SnowflakeConfig) (st : Snowflake.SfState) (now later : Nat)
    (h : (now : Int) < st.last) :
    Snowflake.generateStep cfg st now later =
      .error "Clock moved backwards. Refusing to generate ID" := by
  unfold Snowflake.generateStep
  rw [if_pos h]

/-- Witness for C7 at a concrete regressed clock. -/
theorem generate_fails_on_clock_regression_witness :
    ((1609459200004 : Nat) : Int) <
      (⟨(1609459200005 : Int), 0⟩ : Snowflake.SfState).last ∧
    Snowflake.generateStep ⟨1, 1, CUSTOM_EPOCH⟩ ⟨(1609459200005 : Int), 0⟩
        1609459200004 1609459200006 =
      .error "Clock moved backwards. Refusing to generate ID" :=
  ⟨by decide,
   generate_fails_on_clock_regression ⟨1, 1, CUSTOM_EPOCH⟩
     ⟨(1609459200005 : Int), 0⟩ 1609459200004 1609459200006 (by decide)⟩

/-- C10: `checkChannelPermission` is independent of the channel-level
overwrites (and of the `channelId` argument): two configurations differing
only there produce identical results — the outcome is a function of server
ownership and the OR of the member's role permissions, with `ADMINISTRATOR`
granting everything. -/
theorem checkChannelPermission_independent_of_overwrites
    (servers : List (Nat × Nat)) (members : List ((Nat × Nat) × List Int))
    (ows₁ ows₂ : List ((Nat × Nat) × Overwrite))
    (userId serverId channelId₁ channelId₂ : Nat) (permission : Int) :
    checkChannelPermission ⟨servers, members, ows₁⟩ userId serverId
        channelId₁ permission =
      checkChannelPermission ⟨servers, members, ows₂⟩ userId serverId
        channelId₂ permission := rfl

/-- C2: the claim says both message-create paths reject a sender lacking the
`SEND_MESSAGES` capability.  For a server member whose roles grant no
permissions at all, the service-level `createMessage` does reject without
persisting, but the gateway `handleMessageCreate` — which only checks
membership — persists the message and emits both the local broadcast and the
bus publish. -/
theorem gateway_message_create_skips_send_permission :
    checkChannelPermission ⟨[(1, 10)], [((1, 2), [])], []⟩ 2 1 5
      Permissions.SEND_MESSAGES = false ∧
    createMessage ⟨[(5, ⟨some 1, false⟩)], ⟨[(1, 10)], [((1, 2), [])], []⟩, []⟩
        ⟨[], [], [], 100⟩ 1000 ⟨5, 2, some "hi", [], none, some "n1"⟩ =
      (⟨[], [], [], 100⟩,
       .error "You do not have permission to send messages in this channel") ∧
    handleMessageCreate
        ⟨[(5, ⟨some 1, false⟩)], ⟨[(1, 10)], [((1, 2), [])], []⟩, []⟩
        ⟨[], [], [], 100⟩ 2 5 (some "hi") (some "n1") none =
      .ok (⟨[], [⟨100, 5, 2, "hi", some "n1", none⟩], [(5, 100)], 101⟩,
           ⟨100, 5, 2, "hi", some "n1", none⟩,
           [GwEvent.messageCreate 5 100, GwEvent.messagePublish 5 100]) := by
  decide

/-- C9: on disconnect of an authenticated socket, a user who still has
another registered socket keeps presence `online` and no broadcast is
emitted; removing the last socket transitions presence to `offline` and emits
exactly one offline presence broadcast. -/
theorem disconnect_offline_only_on_last_socket
    (st : GwConnState) (userId socketId : Nat) (socks : List Nat)
    (hs : lookupA st.userSockets userId = some socks)
    (hp : lookupA st.presence userId = some "online") :
    (socks.filter (fun s => s ≠ socketId) ≠ [] →
       lookupA (handleDisconnect st socketId (some userId)).1.presence userId =
         some "online" ∧
       (handleDisconnect st socketId (some userId)).2 = []) ∧
    (socks.filter (fun s => s ≠ socketId) = [] →
       lookupA (handleDisconnect st socketId (some userId)).1.presence userId =
         some "offline" ∧
       (handleDisconnect st socketId (some userId)).2 =
         [GwEvent.presenceUpdate userId "offline"]) := by
  unfold handleDisconnect
  simp only [hs]
  constructor
  · intro hne
    rw [if_neg hne]
    exact ⟨hp, rfl⟩
  · intro he
    rw [if_pos he]
    exact ⟨lookupA_insertA_self _ _ _, rfl⟩

/-- Witness for C9: user 7 with sockets 1 and 2; dropping socket 1 keeps the
user online with no broadcast. -/
theorem disconnect_offline_only_on_last_socket_witness :
    lookupA (handleDisconnect
        ⟨[1, 2], [(7, [1, 2])], [(7, 1), (7, 2)], [(7, "online")],
         [(7, "online")]⟩ 1 (some 7)).1.presence 7 = some "online" ∧
    (handleDisconnect
        ⟨[1, 2], [(7, [1, 2])], [(7, 1), (7, 2)], [(7, "online")],
         [(7, "online")]⟩ 1 (some 7)).2 = [] :=
  (disconnect_offline_only_on_last_socket
      ⟨[1, 2], [(7, [1, 2])], [(7, 1), (7, 2)], [(7, "online")],
       [(7, "online")]⟩ 7 1 [1, 2] (by decide) (by decide)).1 (by decide)

/-! ## Snowflake arithmetic lemmas -/

/-- `x & 31n` is `x mod 32`. -/
theorem and_31_eq_mod (x : Nat) : x &&& 31 = x % 32 := by
  have h := Nat.and_pow_two_sub_one_eq_mod x 5
  norm_num at h
  exact h

/-- `x & 4095n` is `x mod 4096`. -/
theorem and_4095_eq_mod (x : Nat) : x &&& 4095 = x % 4096 := by
  have h := Nat.and_pow_two_sub_one_eq_mod x 12
  norm_num at h
  exact h

/-- The bit fields of a composed id are disjoint, so the ORs of
`composeId` are ordinary addition with place values `2^22`, `2^17`, `2^12`. -/
theorem composeId_eq (cfg : SnowflakeConfig) (ts seq : Nat)
    (hdc : cfg.datacenterId < 32) (hw : cfg.workerId < 32) (hs : seq < 4096) :
    Snowflake.composeId cfg ts seq =
      (ts - cfg.epoch) * 4194304 + cfg.datacenterId * 131072 +
        cfg.workerId * 4096 + seq := by
  unfold Snowflake.composeId
  rw [Nat.shiftLeft_eq, Nat.shiftLeft_eq, Nat.shiftLeft_eq]
  have h1 : (ts - cfg.epoch) * 2 ^ 22 ||| cfg.datacenterId * 2 ^ 17
      = (ts - cfg.epoch) * 2 ^ 22 + cfg.datacenterId * 2 ^ 17 := by
    have hb : cfg.datacenterId * 2 ^ 17 < 2 ^ 22 := by
      show cfg.datacenterId * 131072 < 4194304
      omega
    calc (ts - cfg.epoch) * 2 ^ 22 ||| cfg.datacenterId * 2 ^ 17
        = 2 ^ 22 * (ts - cfg.epoch) ||| cfg.datacenterId * 2 ^ 17 := by
          rw [Nat.mul_comm]
      _ = 2 ^ 22 * (ts - cfg.epoch) + cfg.datacenterId * 2 ^ 17 :=
          (Nat.mul_add_lt_is_or hb _).symm
      _ = (ts - cfg.epoch) * 2 ^ 22 + cfg.datacenterId * 2 ^ 17 := by
          rw [Nat.mul_comm]
  have h2 : (ts - cfg.epoch) * 2 ^ 22 + cfg.datacenterId * 2 ^ 17 |||
        cfg.workerId * 2 ^ 12
      = (ts - cfg.epoch) * 2 ^ 22 + cfg.datacenterId * 2 ^ 17 +
        cfg.workerId * 2 ^ 12 := by
    have hb : cfg.workerId * 2 ^ 12 < 2 ^ 17 := by
      show cfg.workerId * 4096 < 131072
      omega
    calc (ts - cfg.epoch) * 2 ^ 22 + cfg.datacenterId * 2 ^ 17 |||
          cfg.workerId * 2 ^ 12
        = 2 ^ 17 * ((ts - cfg.epoch) * 2 ^ 5 + cfg.datacenterId) |||
          cfg.workerId * 2 ^ 12 := by ring_nf
      _ = 2 ^ 17 * ((ts - cfg.epoch) * 2 ^ 5 + cfg.datacenterId) +
          cfg.workerId * 2 ^ 12 := (Nat.mul_add_lt_is_or hb _).symm
      _ = (ts - cfg.epoch) * 2 ^ 22 + cfg.datacenterId * 2 ^ 17 +
          cfg.workerId * 2 ^ 12 := by ring_nf
  have h3 : (ts - cfg.epoch) * 2 ^ 22 + cfg.datacenterId * 2 ^ 17 +
        cfg.workerId * 2 ^ 12 ||| seq
      = (ts - cfg.epoch) * 2 ^ 22 + cfg.datacenterId * 2 ^ 17 +
        cfg.workerId * 2 ^ 12 + seq := by
    have hb : seq < 2 ^ 12 := hs
    calc (ts - cfg.epoch) * 2 ^ 22 + cfg.datacenterId * 2 ^ 17 +
          cfg.workerId * 2 ^ 12 ||| seq
        = 2 ^ 12 * ((ts - cfg.epoch) * 2 ^ 10 + cfg.datacenterId * 2 ^ 5 +
            cfg.workerId) ||| seq := by ring_nf
      _ = 2 ^ 12 * ((ts - cfg.epoch) * 2 ^ 10 + cfg.datacenterId * 2 ^ 5 +
            cfg.workerId) + seq := (Nat.mul_add_lt_is_or hb _).symm
      _ = (ts - cfg.epoch) * 2 ^ 22 + cfg.datacenterId * 2 ^ 17 +
          cfg.workerId * 2 ^ 12 + seq := by ring_nf
  rw [h1, h2, h3]
  norm_num

/-- `deconstruct` recovers the composed fields (timestamp reported relative
to the fixed `CUSTOM_EPOCH`). -/
theorem deconstruct_composeId (cfg : SnowflakeConfig) (ts seq : Nat)
    (hdc : cfg.datacenterId < 32) (hw : cfg.workerId < 32) (hs : seq < 4096) :
    Snowflake.deconstruct (Snowflake.composeId cfg ts seq) =
      ⟨ts - cfg.epoch + CUSTOM_EPOCH, cfg.workerId, cfg.datacenterId, seq,
       CUSTOM_EPOCH⟩ := by
  rw [composeId_eq cfg ts seq hdc hw hs]
  simp only [Snowflake.deconstruct, Snowflake.Deconstructed.mk.injEq]
  refine ⟨?_, ?_, ?_, ?_, trivial⟩
  · rw [Nat.shiftRight_eq_div_pow]
    have e : (2 : Nat) ^ 22 = 4194304 := by norm_num
    rw [e]
    omega
  · rw [Nat.shiftRight_eq_div_pow, and_31_eq_mod]
    have e : (2 : Nat) ^ 12 = 4096 := by norm_num
    rw [e]
    omega
  · rw [Nat.shiftRight_eq_div_pow, and_31_eq_mod]
    have e : (2 : Nat) ^ 17 = 131072 := by norm_num
    rw [e]
    omega
  · rw [and_4095_eq_mod]
    omega

/-- Strictly larger sequence at the same timestamp yields a strictly larger
id. -/
theorem composeId_strictMono_seq (cfg : SnowflakeConfig) (ts : Nat)
    (hdc : cfg.datacenterId < 32) (hw : cfg.workerId < 32)
    {s s' : Nat} (hs' : s' < 4096) (h : s < s') :
    Snowflake.composeId cfg ts s < Snowflake.composeId cfg ts s' := by
  rw [composeId_eq cfg ts s hdc hw (by omega),
    composeId_eq cfg ts s' hdc hw hs']
  omega

/-- The next sequence value yields exactly the next id. -/
theorem composeId_succ_seq (cfg : SnowflakeConfig) (ts : Nat)
    (hdc : cfg.datacenterId < 32) (hw : cfg.workerId < 32)
    {s : Nat} (hs : s + 1 < 4096) :
    Snowflake.composeId cfg ts (s + 1) = Snowflake.composeId cfg ts s + 1 := by
  rw [composeId_eq cfg ts (s + 1) hdc hw hs,
    composeId_eq cfg ts s hdc hw (by omega)]
  omega

/-- A strictly later timestamp yields a strictly larger id, regardless of the
sequence values. -/
theorem composeId_strictMono_ts (cfg : SnowflakeConfig) {ts ts' s s' : Nat}
    (hdc : cfg.datacenterId < 32) (hw : cfg.workerId < 32)
    (hs : s < 4096) (hs' : s' < 4096) (he : cfg.epoch ≤ ts) (h : ts < ts') :
    Snowflake.composeId cfg ts s < Snowflake.composeId cfg ts' s' := by
  rw [composeId_eq cfg ts s hdc hw hs, composeId_eq cfg ts' s' hdc hw hs']
  omega

/-- Case analysis of a successful `generateStep`: same-millisecond increment,
sequence overflow (wait for `later`), or a fresh millisecond. -/
theorem generateStep_ok_cases {cfg : SnowflakeConfig} {st : Snowflake.SfState}
    {now later id : Nat} {st' : Snowflake.SfState}
    (h : Snowflake.generateStep cfg st now later = .ok (id, st')) :
    ¬((now : Int) < st.last) ∧
    (((now : Int) = st.last ∧ (st.seq + 1) &&& 4095 ≠ 0 ∧
        st' = ⟨(now : Int), (st.seq + 1) &&& 4095⟩ ∧
        id = Snowflake.composeId cfg now ((st.seq + 1) &&& 4095)) ∨
     ((now : Int) = st.last ∧ (st.seq + 1) &&& 4095 = 0 ∧
        st' = ⟨(later : Int), 0⟩ ∧ id = Snowflake.composeId cfg later 0) ∨
     (st.last < (now : Int) ∧ st' = ⟨(now : Int), 0⟩ ∧
        id = Snowflake.composeId cfg now 0)) := by
  unfold Snowflake.generateStep at h
  split at h
  · exact absurd h (by simp)
  next hnlt =>
    split at h
    next heq =>
      split at h
      next hz =>
        simp only [Except.ok.injEq, Prod.mk.injEq] at h
        exact ⟨hnlt, Or.inr (Or.inl ⟨heq, hz, h.2.symm, h.1.symm⟩)⟩
      next hnz =>
        simp only [Except.ok.injEq, Prod.mk.injEq] at h
        exact ⟨hnlt, Or.inl ⟨heq, hnz, h.2.symm, h.1.symm⟩⟩
    next hne =>
      simp only [Except.ok.injEq, Prod.mk.injEq] at h
      refine ⟨hnlt, Or.inr (Or.inr ⟨?_, h.2.symm, h.1.symm⟩)⟩
      omega

/-- Every id produced from a well-formed state is `composeId` at the new
state's timestamp and sequence, with the timestamp at or after the epoch. -/
theorem generateStep_shape {cfg : SnowflakeConfig} {st : Snowflake.SfState}
    {now later id : Nat} {st' : Snowflake.SfState}
    (hwf : Snowflake.WF cfg st) (hnow : cfg.epoch ≤ now)
    (hlater : st.last < (later : Int))
    (h : Snowflake.generateStep cfg st now later = .ok (id, st')) :
    ∃ ts : Nat, st'.last = (ts : Int) ∧ cfg.epoch ≤ ts ∧ st'.seq ≤ 4095 ∧
      id = Snowflake.composeId cfg ts st'.seq ∧ Snowflake.WF cfg st' := by
  obtain ⟨hwfseq, hwflast⟩ := hwf
  obtain ⟨-, hc⟩ := generateStep_ok_cases h
  rcases hc with ⟨heq, hnz, hst, hid⟩ | ⟨heq, hz, hst, hid⟩ | ⟨hlt, hst, hid⟩
  · subst hst hid
    have hb : (st.seq + 1) &&& 4095 ≤ 4095 := by
      rw [and_4095_eq_mod]
      omega
    refine ⟨now, rfl, hnow, hb, rfl, hb, Or.inr ?_⟩
    show (cfg.epoch : Int) ≤ (now : Int)
    exact_mod_cast hnow
  · subst hst hid
    have hepl : cfg.epoch ≤ later := by
      rcases hwflast with h1 | h1 <;> omega
    refine ⟨later, rfl, hepl, ?_, rfl, ?_, Or.inr ?_⟩
    · show (0 : Nat) ≤ 4095
      decide
    · show (0 : Nat) ≤ 4095
      decide
    · show (cfg.epoch : Int) ≤ (later : Int)
      exact_mod_cast hepl
  · subst hst hid
    refine ⟨now, rfl, hnow, ?_, rfl, ?_, Or.inr ?_⟩
    · show (0 : Nat) ≤ 4095
      decide
    · show (0 : Nat) ≤ 4095
      decide
    · show (cfg.epoch : Int) ≤ (now : Int)
      exact_mod_cast hnow

/-- C5: for any identifier produced by `generate` on a generator with the
default epoch, `deconstruct` recovers exactly the absolute millisecond
timestamp, the worker and datacenter ids, and the sequence from which the
identifier was composed (all carried in the post-state). -/
theorem deconstruct_roundtrips_generate
    (cfg : SnowflakeConfig) (st : Snowflake.SfState) (now later id : Nat)
    (st' : Snowflake.SfState)
    (hdc : cfg.datacenterId < 32) (hw : cfg.workerId < 32)
    (hep : cfg.epoch = CUSTOM_EPOCH)
    (hwf : Snowflake.WF cfg st) (hnow : cfg.epoch ≤ now)
    (hlater : st.last < (later : Int))
    (h : Snowflake.generateStep cfg st now later = .ok (id, st')) :
    Snowflake.deconstruct id =
      ⟨st'.last.toNat, cfg.workerId, cfg.datacenterId, st'.seq, cfg.epoch⟩ := by
  obtain ⟨ts, hlast, hets, hseq, hid, -⟩ := generateStep_shape hwf hnow hlater h
  subst hid
  rw [deconstruct_composeId cfg ts st'.seq hdc hw (by omega)]
  rw [hlast, hep]
  have hts : ts - CUSTOM_EPOCH + CUSTOM_EPOCH = ts := by
    rw [hep] at hets
    omega
  simp [hts]

/-- Witness for C5: the first id generated at clock `CUSTOM_EPOCH + 5` by the
worker-1 / datacenter-1 generator is `21106688`, and `deconstruct` recovers
all four components. -/
theorem deconstruct_roundtrips_generate_witness :
    Snowflake.deconstruct 21106688 =
      ⟨1609459200005, 1, 1, 0, 1609459200000⟩ := by
  have h := deconstruct_roundtrips_generate ⟨1, 1, CUSTOM_EPOCH⟩
    Snowflake.initState 1609459200005 1609459200006 21106688
    ⟨(1609459200005 : Int), 0⟩ (by decide) (by decide) rfl
    ⟨by decide, Or.inl rfl⟩ (by decide) (by decide) (by decide)
  simpa using h

/-- C6: successive successful `generate` calls on one instance are strictly
increasing.  A second call in the same millisecond (no sequence overflow)
yields exactly the previous id plus one, with the same timestamp and the
sequence incremented by exactly one — both ids are compositions at the same
timestamp.  A call that overflows the 12-bit sequence (the 4097th in one
millisecond) advances to the strictly later millisecond delivered by
`waitNextMillis`, resets the sequence to 0, and never equals sequence 0 of
the prior millisecond's timestamp. -/
theorem generate_strictly_increasing
    (cfg : SnowflakeConfig) (st0 st1 st2 : Snowflake.SfState)
    (now1 later1 now2 later2 id1 id2 : Nat)
    (hdc : cfg.datacenterId < 32) (hw : cfg.workerId < 32)
    (hwf : Snowflake.WF cfg st0)
    (hnow1 : cfg.epoch ≤ now1) (hnow2 : cfg.epoch ≤ now2)
    (hl1 : st0.last < (later1 : Int)) (hl2 : st1.last < (later2 : Int))
    (h1 : Snowflake.generateStep cfg st0 now1 later1 = .ok (id1, st1))
    (h2 : Snowflake.generateStep cfg st1 now2 later2 = .ok (id2, st2)) :
    id1 < id2 ∧
    ((now2 : Int) = st1.last ∧ st1.seq < 4095 →
       id2 = id1 + 1 ∧ st2.last = st1.last ∧ st2.seq = st1.seq + 1 ∧
       id1 = Snowflake.composeId cfg st1.last.toNat st1.seq ∧
       id2 = Snowflake.composeId cfg st1.last.toNat (st1.seq + 1)) ∧
    ((now2 : Int) = st1.last ∧ st1.seq = 4095 →
       st2.seq = 0 ∧ st2.last = (later2 : Int) ∧ st1.last < st2.last ∧
       id2 ≠ Snowflake.composeId cfg st1.last.toNat 0) := by
  obtain ⟨ts1, hlast1, hets1, hseq1, hid1, -⟩ :=
    generateStep_shape hwf hnow1 hl1 h1
  have htn : st1.last.toNat = ts1 := by
    rw [hlast1]
    simp
  obtain ⟨-, hc⟩ := generateStep_ok_cases h2
  rcases hc with ⟨heq, hnz, hst, hid⟩ | ⟨heq, hz, hst, hid⟩ | ⟨hlt, hst, hid⟩
  · -- same millisecond, no overflow
    have hnow2ts : now2 = ts1 := by
      have hcast : (now2 : Int) = (ts1 : Int) := by rw [heq, hlast1]
      exact_mod_cast hcast
    have hslt : st1.seq < 4095 := by
      rw [and_4095_eq_mod] at hnz
      omega
    have hmod : (st1.seq + 1) &&& 4095 = st1.seq + 1 := by
      rw [and_4095_eq_mod]
      omega
    subst hst hid
    refine ⟨?_, ?_, ?_⟩
    · rw [hid1, hmod, hnow2ts]
      exact composeId_strictMono_seq cfg ts1 hdc hw (by omega) (by omega)
    · intro _
      refine ⟨?_, ?_, ?_, ?_, ?_⟩
      · rw [hid1, hmod, hnow2ts, composeId_succ_seq cfg ts1 hdc hw (by omega)]
      · show (now2 : Int) = st1.last
        exact heq
      · show (st1.seq + 1) &&& 4095 = st1.seq + 1
        exact hmod
      · rw [htn]
        exact hid1
      · rw [htn, hmod, hnow2ts]
    · intro hcontra
      exact absurd hcontra.2 (by omega)
  · -- sequence overflow: wait for the next millisecond
    have hs1 : st1.seq = 4095 := by
      rw [and_4095_eq_mod] at hz
      omega
    have hts1lt : ts1 < later2 := by
      have hcast : (ts1 : Int) < (later2 : Int) := by
        rw [← hlast1]
        exact hl2
      exact_mod_cast hcast
    subst hst hid
    refine ⟨?_, ?_, ?_⟩
    · rw [hid1]
      exact composeId_strictMono_ts cfg hdc hw (by omega) (by decide) hets1
        hts1lt
    · intro hcontra
      omega
    · intro _
      refine ⟨rfl, rfl, ?_, ?_⟩
      · show st1.last < (later2 : Int)
        exact hl2
      · rw [htn]
        exact Nat.ne_of_gt
          (composeId_strictMono_ts cfg hdc hw (by decide) (by decide) hets1
            hts1lt)
  · -- fresh millisecond
    have htslt : ts1 < now2 := by
      have hcast : (ts1 : Int) < (now2 : Int) := by
        rw [← hlast1]
        exact hlt
      exact_mod_cast hcast
    subst hst hid
    refine ⟨?_, ?_, ?_⟩
    · rw [hid1]
      exact composeId_strictMono_ts cfg hdc hw (by omega) (by decide) hets1
        htslt
    · intro hcontra
      rw [hlast1] at hcontra
      have : (now2 : Int) = (ts1 : Int) := hcontra.1
      omega
    · intro hcontra
      rw [hlast1] at hcontra
      have : (now2 : Int) = (ts1 : Int) := hcontra.1
      omega

/-- Witness for C6: two calls of the worker-1 / datacenter-1 generator in the
same millisecond `CUSTOM_EPOCH + 5` give ids `21106688` then `21106689`, the
second being the first plus one via the sequence component. -/
theorem generate_strictly_increasing_witness :
    (21106688 : Nat) < 21106689 ∧ (21106689 : Nat) = 21106688 + 1 := by
  have h := generate_strictly_increasing ⟨1, 1, CUSTOM_EPOCH⟩
    Snowflake.initState ⟨(1609459200005 : Int), 0⟩ ⟨(1609459200005 : Int), 1⟩
    1609459200005 1609459200006 1609459200005 1609459200006 21106688 21106689
    (by decide) (by decide) ⟨by decide, Or.inl rfl⟩ (by decide) (by decide)
    (by decide) (by decide) (by decide) (by decide)
  exact ⟨h.1, (h.2.1 ⟨by decide, by decide⟩).1⟩

/-- On the server-channel success path (channel present and live, sender has
`SEND_MESSAGES`, content valid), `createMessage` is exactly its
rate-limit/persist tail. -/
theorem createMessage_server_path (env : SvcEnv) (st : SvcState) (now : Nat)
    (d : CreateMessageData) (ch : Channel) (sid : Nat)
    (hch : lookupA env.channels d.channelId = some ch)
    (hdel : ch.isDeleted = false)
    (hsid : ch.serverId = some sid)
    (hperm : checkChannelPermission env.permEnv d.authorId sid d.channelId
        Permissions.SEND_MESSAGES = true)
    (hcontent : ¬(d.content.getD "" = "" ∧ d.attachments = [])) :
    createMessage env st now d =
      svcRateAndPersist st now d.channelId d.authorId (d.content.getD "")
        d.nonce d.replyTo := by
  unfold createMessage
  rw [if_neg hcontent]
  simp [hch, hdel, hsid, hperm]

/-- A counter read at time `now`: fresh key (`k = 0`) or a live entry
`(k, now + 60)` both read as count `k` with expiry `now + 60`. -/
theorem readCounter_spec (rate : List ((Nat × Nat) × (Nat × Nat)))
    (key : Nat × Nat) (now k : Nat)
    (hrate : lookupA rate key = if k = 0 then none else some (k, now + 60)) :
    readCounter rate key now = (k, now + 60) := by
  unfold readCounter
  rw [hrate]
  by_cases hk0 : k = 0
  · simp [hk0]
  · rw [if_neg hk0]
    simp only []
    rw [if_pos (by omega)]

/-- One `createMessage` call against a counter currently at `k` (within the
window): for `k < 30` it succeeds, appends exactly one message and advances
the counter to `k + 1`; for `k = 30` (the 31st call) it is rejected with the
rate-limit error, leaving the messages untouched. -/
theorem createMessage_step (env : SvcEnv) (st : SvcState) (t : Nat)
    (d : CreateMessageData) (ch : Channel) (sid k : Nat)
    (hch : lookupA env.channels d.channelId = some ch)
    (hdel : ch.isDeleted = false)
    (hsid : ch.serverId = some sid)
    (hperm : checkChannelPermission env.permEnv d.authorId sid d.channelId
        Permissions.SEND_MESSAGES = true)
    (hcontent : ¬(d.content.getD "" = "" ∧ d.attachments = []))
    (hrate : lookupA st.rate (d.authorId, d.channelId) =
        if k = 0 then none else some (k, t + 60)) :
    (k < 30 →
       (createMessage env st t d).2.isOk = true ∧
       (createMessage env st t d).1.messages.length =
         st.messages.length + 1 ∧
       lookupA (createMessage env st t d).1.rate (d.authorId, d.channelId) =
         some (k + 1, t + 60)) ∧
    (k = 30 →
       (createMessage env st t d).2 =
         .error "Rate limit exceeded. Please slow down." ∧
       (createMessage env st t d).1.messages = st.messages) := by
  rw [createMessage_server_path env st t d ch sid hch hdel hsid hperm
    hcontent]
  unfold svcRateAndPersist
  dsimp only
  rw [readCounter_spec st.rate (d.authorId, d.channelId) t k hrate]
  constructor
  · intro hk
    rw [if_neg (by omega : ¬((k, t + 60).1 + 1 > 30))]
    refine ⟨rfl, by simp, ?_⟩
    exact lookupA_insertA_self _ _ _
  · intro hk
    subst hk
    rw [if_pos (by omega : ((30, t + 60).1 + 1 > 30))]
    exact ⟨rfl, rfl⟩

/-- C8: the per-(author, channel) limiter is a fixed 60-second window of 30
sends.  Starting from a fresh counter, with all calls inside one window, the
first 30 `createMessage` calls succeed (each persisting exactly one
message, 30 in total), and the 31st is rejected with the rate-limit error
and persists nothing. -/
theorem rate_limiter_allows_30_rejects_31st
    (env : SvcEnv) (st0 : SvcState) (t : Nat) (d : CreateMessageData)
    (ch : Channel) (sid : Nat)
    (hch : lookupA env.channels d.channelId = some ch)
    (hdel : ch.isDeleted = false)
    (hsid : ch.serverId = some sid)
    (hperm : checkChannelPermission env.permEnv d.authorId sid d.channelId
        Permissions.SEND_MESSAGES = true)
    (hcontent : ¬(d.content.getD "" = "" ∧ d.attachments = []))
    (hfresh : lookupA st0.rate (d.authorId, d.channelId) = none) :
    (∀ k, k < 30 →
       (createMessage env (svcIter env t d k st0) t d).2.isOk = true) ∧
    (svcIter env t d 30 st0).messages.length = st0.messages.length + 30 ∧
    (createMessage env (svcIter env t d 30 st0) t d).2 =
      .error "Rate limit exceeded. Please slow down." ∧
    (createMessage env (svcIter env t d 30 st0) t d).1.messages =
      (svcIter env t d 30 st0).messages := by
  have hinv : ∀ k, k ≤ 30 →
      lookupA (svcIter env t d k st0).rate (d.authorId, d.channelId) =
        (if k = 0 then none else some (k, t + 60)) ∧
      (svcIter env t d k st0).messages.length = st0.messages.length + k := by
    intro k
    induction k with
    | zero =>
      intro _
      exact ⟨by simpa [svcIter] using hfresh, by simp [svcIter]⟩
    | succ n ih =>
      intro hn
      obtain ⟨hA, hB⟩ := ih (by omega)
      have hstep := createMessage_step env (svcIter env t d n st0) t d ch sid
        n hch hdel hsid hperm hcontent hA
      obtain ⟨-, hlen, hrate'⟩ := hstep.1 (by omega)
      constructor
      · show lookupA ((createMessage env (svcIter env t d n st0) t d).1).rate
            (d.authorId, d.channelId) = _
        rw [if_neg (by omega : ¬(n + 1 = 0))]
        exact hrate'
      · show ((createMessage env (svcIter env t d n st0) t d).1).messages.length
            = st0.messages.length + (n + 1)
        omega
  refine ⟨?_, ?_, ?_, ?_⟩
  · intro k hk
    obtain ⟨hA, -⟩ := hinv k (by omega)
    exact ((createMessage_step env _ t d ch sid k hch hdel hsid hperm
      hcontent hA).1 hk).1
  · exact (hinv 30 (by omega)).2
  · obtain ⟨hA, -⟩ := hinv 30 (by omega)
    exact ((createMessage_step env _ t d ch sid 30 hch hdel hsid hperm
      hcontent hA).2 rfl).1
  · obtain ⟨hA, -⟩ := hinv 30 (by omega)
    exact ((createMessage_step env _ t d ch sid 30 hch hdel hsid hperm
      hcontent hA).2 rfl).2

/-- Witness for C8 on a concrete configuration: user 2 sending in server
channel 5 with `SEND_MESSAGES`; after 30 accepted sends the store holds 30
messages and the 31st call is rejected. -/
theorem rate_limiter_allows_30_rejects_31st_witness :
    (svcIter
        ⟨[(5, ⟨some 1, false⟩)],
         ⟨[(1, 10)], [((1, 2), [Permissions.SEND_MESSAGES])], []⟩, []⟩
        1000 ⟨5, 2, some "hi", [], none, some "n1"⟩ 30
        ⟨[], [], [], 100⟩).messages.length = ([] : List Msg).length + 30 ∧
    (createMessage
        ⟨[(5, ⟨some 1, false⟩)],
         ⟨[(1, 10)], [((1, 2), [Permissions.SEND_MESSAGES])], []⟩, []⟩
        (svcIter
          ⟨[(5, ⟨some 1, false⟩)],
           ⟨[(1, 10)], [((1, 2), [Permissions.SEND_MESSAGES])], []⟩, []⟩
          1000 ⟨5, 2, some "hi", [], none, some "n1"⟩ 30
          ⟨[], [], [], 100⟩)
        1000 ⟨5, 2, some "hi", [], none, some "n1"⟩).2 =
      .error "Rate limit exceeded. Please slow down." := by
  have h := rate_limiter_allows_30_rejects_31st
    ⟨[(5, ⟨some 1, false⟩)],
     ⟨[(1, 10)], [((1, 2), [Permissions.SEND_MESSAGES])], []⟩, []⟩
    ⟨[], [], [], 100⟩ 1000 ⟨5, 2, some "hi", [], none, some "n1"⟩
    ⟨some 1, false⟩ 1 (by decide) (by decide) (by decide) (by decide)
    (by decide) (by decide)
  exact ⟨h.2.1, h.2.2.1⟩
